import Mathlib

/-!
Shallow embedding of the IDE-bridge core of this repository:
`crates/chat-cli/src/jsonrpc_server.rs` (editor-context store, JSON-RPC
dispatcher, websocket connection slot) and
`crates/chat-cli/src/cli/chat/tools/vscode_integration.rs` (legacy one-shot
HTTP push and availability probe).  Pure definitions mirror the Rust source;
the connection lifecycle is modelled as a step function over an explicit
slot state, with deliveries made observable as a list.
-/

namespace QBridge

/-- Model of `serde_json::Value` restricted to what the bridge produces and
consumes.  Only integer numbers appear in this code (`as_i64` casts and the
literal ids), so numbers carry an `Int`. -/
inductive Value where
  | null : Value
  | bool (b : Bool) : Value
  | num (n : Int) : Value
  | str (s : String) : Value
  | arr (xs : List Value) : Value
  | obj (fields : List (String × Value)) : Value
deriving Repr

/-- `Value::get(key)` for objects: first binding wins, `None` on non-objects
(`serde_json` maps cannot hold duplicate keys, so first-wins is faithful). -/
def Value.get (v : Value) (key : String) : Option Value :=
  match v with
  | .obj fields => fields.lookup key
  | _ => none

/-- `Value::as_str`. -/
def Value.as_str (v : Value) : Option String :=
  match v with
  | .str s => some s
  | _ => none

/-- `Value::as_i64` (number values in this model are already integers). -/
def Value.as_i64 (v : Value) : Option Int :=
  match v with
  | .num n => some n
  | _ => none

/-- `Value::as_array`. -/
def Value.as_arr (v : Value) : Option (List Value) :=
  match v with
  | .arr xs => some xs
  | _ => none

/-- Key list of an object value, in construction order. -/
def Value.keys (v : Value) : List String :=
  match v with
  | .obj fields => fields.map Prod.fst
  | _ => []

/-- Rust `as i32` on an `i64`, and wrapping `i32` arithmetic: reduce into
`[-2^31, 2^31)`. -/
def wrap32 (n : Int) : Int :=
  (n + 2 ^ 31) % 2 ^ 32 - 2 ^ 31

/-- `crate::api_client::model::Position` (fields are `i32`, carried as the
integers they denote). -/
structure Position where
  line : Int
  character : Int
deriving Repr, DecidableEq

/-- `crate::api_client::model::Range`. -/
structure Range where
  start : Position
  «end» : Position
deriving Repr, DecidableEq

/-- `crate::api_client::model::CursorState`: tagged union, exactly one
variant active. -/
inductive CursorState where
  | Position (p : Position) : CursorState
  | Range (r : Range) : CursorState
deriving Repr, DecidableEq

/-- `EditorInfo` from `jsonrpc_server.rs` (the stored editor context). -/
structure EditorInfo where
  relative_file_path : Option String := none
  language : Option String := none
  text : Option String := none
  cursor_state : Option CursorState := none
  workspace_folders : Option (List String) := none
deriving Repr, DecidableEq

/-- `crate::api_client::model::TextDocument` as constructed by
`get_current_editor_state` (fields inferred from their use at the single
construction site in `src`; `programming_language` and `document_symbols`
are always set to `None` there). -/
structure TextDocument where
  relative_file_path : String
  programming_language : Option String
  text : Option String
  document_symbols : Option Unit
deriving Repr, DecidableEq

/-- `crate::api_client::model::EditorState` as constructed by
`get_current_editor_state`. -/
structure EditorState where
  document : Option TextDocument
  cursor_state : Option CursorState
  relevant_documents : Option Unit
  use_relevant_documents : Option Bool
  workspace_folders : Option (List String)
deriving Repr, DecidableEq

/-- `get_current_editor_state` (`jsonrpc_server.rs` lines 31-49): `None`
exactly when no `relative_file_path` is stored; otherwise a snapshot built
by cloning the stored fields — note `programming_language` is hardcoded to
`None` at line 40, the stored `language` is not propagated. -/
def get_current_editor_state (editor_info : EditorInfo) : Option EditorState :=
  editor_info.relative_file_path.map fun path =>
    { document := some
        { relative_file_path := path
          programming_language := none
          text := editor_info.text
          document_symbols := none }
      cursor_state := editor_info.cursor_state
      relevant_documents := none
      use_relevant_documents := some false
      workspace_folders := editor_info.workspace_folders }

/-- The `(range.end.line - range.start.line + 1).max(1)` computation of
`set_current_editor` (line 54), in wrapping `i32` arithmetic. -/
def selectionLines (range : Range) : Int :=
  max (wrap32 (wrap32 (range.«end».line - range.start.line) + 1)) 1

/-- The `selection_info` string computed by `set_current_editor`
(lines 52-58): a human-readable selection size for a `Range`, empty for a
`Position` or no cursor state. -/
def selection_info (cursor_state : Option CursorState) : String :=
  match cursor_state with
  | some (.Range range) =>
      " (" ++ toString (selectionLines range) ++ " lines selected)"
  | _ => ""

/-- `set_current_editor` (lines 51-90) as a pure state transformer: the new
store is the argument wholesale (full replacement, no merge).  The second
component is the `selection_info` string handed to the status-line renderer
(the terminal side effect itself is out of scope; its errors are swallowed
by the source via `let _ = execute!`). -/
def set_current_editor (info : EditorInfo) : EditorInfo × String :=
  (info, selection_info info.cursor_state)

/-- `JsonRpcRequest` from `jsonrpc_server.rs` lines 95-100. -/
structure JsonRpcRequest where
  method : String
  params : Option Value := none
  id : Option Value := none

/-- `json!` serialization of an `Option<Value>` id field: `None` becomes
JSON `null`. -/
def idValue (id : Option Value) : Value :=
  match id with
  | some v => v
  | none => .null

/-- The `update_editor_state` success response (lines 219-223). -/
def okResponse (id : Option Value) : Value :=
  .obj [("jsonrpc", .str "2.0"),
        ("result", .obj [("status", .str "ok")]),
        ("id", idValue id)]

/-- The unknown-method error response (lines 225-229). -/
def methodNotFoundResponse (id : Option Value) : Value :=
  .obj [("jsonrpc", .str "2.0"),
        ("error", .obj [("code", .num (-32601)),
                        ("message", .str "Method not found")]),
        ("id", idValue id)]

/-- The `position` branch of the cursor parse (lines 172-183): both `line`
and `character` must be present as integers, else no cursor is stored. -/
def parsePositionVariant (position : Value) : Option CursorState :=
  match (position.get "line").bind Value.as_i64,
        (position.get "character").bind Value.as_i64 with
  | some line, some character =>
      some (.Position { line := wrap32 line, character := wrap32 character })
  | _, _ => none

/-- The `range` branch of the cursor parse (lines 184-206): `start` and
`end` objects with all four integer fields, else no cursor is stored. -/
def parseRangeVariant (range : Value) : Option CursorState :=
  match range.get "start", range.get "end" with
  | some start, some «end» =>
      match (start.get "line").bind Value.as_i64,
            (start.get "character").bind Value.as_i64,
            ((«end».get "line").bind Value.as_i64),
            ((«end».get "character").bind Value.as_i64) with
      | some start_line, some start_char, some end_line, some end_char =>
          some (.Range
            { start := { line := wrap32 start_line, character := wrap32 start_char }
              «end» := { line := wrap32 end_line, character := wrap32 end_char } })
      | _, _, _, _ => none
  | _, _ => none

/-- The cursor-state parse (lines 171-207): the `position` key is tried
first; the `range` key is examined only when no `position` key exists at
all (`if let ... else if let ...`). -/
def parseCursorState (cursor_state : Value) : Option CursorState :=
  match cursor_state.get "position" with
  | some position => parsePositionVariant position
  | none =>
      match cursor_state.get "range" with
      | some range => parseRangeVariant range
      | none => none

/-- The field extraction of `handle_jsonrpc_request` for
`update_editor_state` (lines 160-215): starts from `EditorInfo::default()`
and fills exactly the fields that are present and well-typed in `params`. -/
def parseEditorInfo (params : Value) : EditorInfo :=
  { relative_file_path := (params.get "relative_file_path").bind Value.as_str
    language := (params.get "language").bind Value.as_str
    text := (params.get "text").bind Value.as_str
    cursor_state := (params.get "cursor_state").bind parseCursorState
    workspace_folders :=
      ((params.get "workspace_folders").bind Value.as_arr).map fun folders =>
        folders.filterMap Value.as_str }

/-- `handle_jsonrpc_request` (lines 157-231) as a pure function of the
stored context: returns the context after dispatch and the JSON response.
When `method = "update_editor_state"` but `params` is absent, the source
skips `set_current_editor` entirely (line 159's `if let`), leaving the
previous context in place, and still answers ok. -/
def handle_jsonrpc_request (store : EditorInfo) (req : JsonRpcRequest) :
    EditorInfo × Value :=
  if req.method = "update_editor_state" then
    match req.params with
    | some params =>
        ((set_current_editor (parseEditorInfo params)).1, okResponse req.id)
    | none => (store, okResponse req.id)
  else
    (store, methodNotFoundResponse req.id)

/-! ### Connection slot and lifecycle

`WS_SENDER` holds at most one outbound sink (`jsonrpc_server.rs` line 28).
We model sinks by an identifier type `K`; the slot is `Option K`.
Deliveries are observable as `(sink, message)` pairs. -/

variable {K : Type}

/-- `send_to_ide` (lines 102-108): if a sink is installed the message is
handed to it (its send error is discarded by `let _ =`); with no sink
installed nothing happens.  Either way the function returns `Ok(())` —
the `eyre::Result` is always the success value. -/
def send_to_ide (slot : Option K) (message : Value) :
    List (K × Value) × Except String Unit :=
  match slot with
  | some tx => ([(tx, message)], .ok ())
  | none => ([], .ok ())

/-- The JSON-RPC notification envelope built by `notify_ide`
(lines 111-118). -/
def notification (method : String) (params : Value) : Value :=
  .obj [("jsonrpc", .str "2.0"),
        ("method", .str method),
        ("params", params)]

/-- `notify_ide` (lines 111-118): wraps and forwards to `send_to_ide`. -/
def notify_ide (slot : Option K) (method : String) (params : Value) :
    List (K × Value) × Except String Unit :=
  send_to_ide slot (notification method params)

/-- Lifecycle events of `handle_websocket` (lines 120-155), abstracted over
the connection they belong to. -/
inductive Event (K : Type) where
  | install (c : K) : Event K
  | teardown (c : K) : Event K
  | publish (m : Value) : Event K

/-- One lifecycle step.  `install c` stores `c`'s sender (line 124) and then
publishes the `connection_established` notification (line 127) through the
slot, which now holds `c`.  `teardown c` is the epilogue of `c`'s read loop:
line 151 sets the slot to `None` *unconditionally* — even when the slot
meanwhile holds a different connection — and then best-effort publishes
`connection_closed` (line 154) through the now-empty slot.  `publish m` is
any `send_to_ide` call. -/
def step (slot : Option K) : Event K → Option K × List (K × Value)
  | .install c =>
      let slot' : Option K := some c
      (slot', (notify_ide slot' "connection_established"
        (.obj [("status", .str "connected")])).1)
  | .teardown _ =>
      let slot' : Option K := none
      (slot', (notify_ide slot' "connection_closed"
        (.obj [("status", .str "disconnected")])).1)
  | .publish m => (slot, (send_to_ide slot m).1)

/-- Run a list of lifecycle events, accumulating deliveries in order. -/
def run (slot : Option K) : List (Event K) → Option K × List (K × Value)
  | [] => (slot, [])
  | e :: es =>
      let r := step slot e
      let rest := run r.1 es
      (rest.1, r.2 ++ rest.2)

/-! ### Legacy one-shot transport (`vscode_integration.rs`) -/

/-- The request payload built by `send_clean_diff_to_vscode`
(`vscode_integration.rs` lines 17-27).  Its `params` object carries exactly
`type`, `originalContent`, `modifiedContent` and `filePath` — nothing else.
`file_path.to_string_lossy()` is carried as the string it yields. -/
def cleanDiffPayload (original_content modified_content file_path : String) :
    Value :=
  .obj [("jsonrpc", .str "2.0"),
        ("method", .str "file_modification"),
        ("params", .obj
          [("type", .str "clean_diff_view"),
           ("originalContent", .str original_content),
           ("modifiedContent", .str modified_content),
           ("filePath", .str file_path)]),
        ("id", .num 1)]

/-- Outcome of the probe's HTTP round trip in
`is_vscode_integration_available` (lines 92-101): the `tokio::time::timeout`
elapsed, the client failed with an I/O error, or a response arrived whose
status is or is not a success. -/
inductive ProbeOutcome where
  | timeout : ProbeOutcome
  | ioError (msg : String) : ProbeOutcome
  | response (success : Bool) : ProbeOutcome
deriving Repr, DecidableEq

/-- `is_vscode_integration_available` (lines 69-113).  The two environment
variables are only inspected for logging (lines 73-86); they never affect
the result.  A timeout returns `false` (line 99); a client error returns
`false` (line 108); otherwise the response's success status is returned.
The function's type is `bool` — no error can propagate. -/
def is_vscode_integration_available (term_program : Option String)
    (vscode_extensions : Option String) (outcome : ProbeOutcome) : Bool :=
  match term_program, vscode_extensions, outcome with
  | _, _, .timeout => false
  | _, _, .ioError _ => false
  | _, _, .response success => success

/-- Sinks never named by an `install` event in a trace, and not currently
in the slot, receive no delivery: installs hand the slot (and the
`connection_established` notification) to the installed connection only,
teardowns clear the slot and deliver nothing, and publishes reach only the
slot's current holder. -/
theorem run_no_delivery_to (a : K) :
    ∀ (tr : List (Event K)) (slot : Option K), slot ≠ some a →
      Event.install a ∉ tr → ∀ v : Value, (a, v) ∉ (run slot tr).2 := by
  intro tr
  induction tr with
  | nil =>
      intro slot hslot hmem v
      simp [run]
  | cons e es ih =>
      intro slot hslot hmem v
      have hhead : e ≠ Event.install a := fun h => hmem (h ▸ List.mem_cons_self e es)
      have htail : Event.install a ∉ es := fun h => hmem (List.mem_cons_of_mem e h)
      rw [run]
      simp only [List.mem_append, not_or]
      cases e with
      | install c =>
          have hca : c ≠ a := fun h => hhead (by rw [h])
          constructor
          · simp [step, notify_ide, send_to_ide]
            exact fun h _ => hca h.symm
          · exact ih (some c) (by simp [hca]) htail v
      | teardown c =>
          constructor
          · simp [step, notify_ide, send_to_ide]
          · exact ih none (by simp) htail v
      | publish m =>
          constructor
          · cases slot with
            | none => simp [step, send_to_ide]
            | some d =>
                have hda : d ≠ a := fun h => hslot (by rw [h])
                simp [step, send_to_ide]
                exact fun h _ => hda h.symm
          · exact ih slot hslot htail v

/-! ### Claims -/

/-- Claim C1, counterexample: with connection `0` (A) active, connection
`1` (B) installs and supersedes it; when A's pump then detects closure and
tears down, line 151 sets the slot to `None` unconditionally, so the
subsequent publish of `"msg"` is delivered to NO connection — it does not
reach B, contrary to the claim that publishes made after A's teardown
still reach only B.  The full run delivers only the two
`connection_established` notifications and ends with an empty slot. -/
theorem C1_counterexample :
    run (K := Nat) none
      [Event.install 0, Event.install 1, Event.teardown 0,
       Event.publish (.str "msg")] =
      (none,
       [(0, notification "connection_established"
              (.obj [("status", .str "connected")])),
        (1, notification "connection_established"
              (.obj [("status", .str "connected")]))]) := by
  rfl

/-- Claim C1, amended: once connection B is installed, old connection A
never again receives any message for the rest of any trace that does not
re-install A; a publish made while the slot holds B is delivered exactly
to B; but A's independent teardown clears the slot unconditionally and
delivers nothing, so publishes after it reach no connection at all until a
new connection installs. -/
theorem C1_theorem (a b : K) (slot : Option K) (tr : List (Event K))
    (hslot : slot ≠ some a) (hnoinstall : Event.install a ∉ tr) :
    (∀ v : Value, (a, v) ∉ (run slot tr).2) ∧
    (∀ m : Value, step (some b) (Event.publish m) = (some b, [(b, m)])) ∧
    (∀ c : K, step slot (Event.teardown c) = (none, [])) := by
  refine ⟨run_no_delivery_to a tr slot hslot hnoinstall,
    fun m => rfl, fun c => rfl⟩

/-- Witness for C1: with B (= `1`) holding the slot and a trace that
installs nobody else, A (= `0`) receives nothing; publishes reach exactly
B; a teardown clears the slot and delivers nothing. -/
theorem C1_witness :
    (∀ v : Value, ((0 : Nat), v) ∉
      (run (K := Nat) (some 1)
        [Event.publish (.str "m1"), Event.teardown 0,
         Event.publish (.str "m2")]).2) ∧
    (∀ m : Value, step (K := Nat) (some 1) (Event.publish m) =
      (some 1, [(1, m)])) ∧
    (∀ c : Nat, step (K := Nat) (some 1) (Event.teardown c) = (none, [])) :=
  C1_theorem 0 1 (some 1)
    [Event.publish (.str "m1"), Event.teardown 0, Event.publish (.str "m2")]
    (by simp) (by simp)

/-- Claim C2, counterexample: dispatching `update_editor_state` with
`params` absent entirely does NOT reset the store to a fresh all-unset
context — the source's `if let Some(params)` (line 159) skips
`set_current_editor`, so the previously stored context (here holding
`language = "rust"`) survives the dispatch, contradicting "every field
absent from params (including all fields when params is absent entirely)
is unset, never inherited from the previously stored context". -/
theorem C2_counterexample :
    (handle_jsonrpc_request
      { relative_file_path := some "old.rs", language := some "rust" }
      { method := "update_editor_state", params := none,
        id := some (.num 1) }).1 =
      { relative_file_path := some "old.rs", language := some "rust" } ∧
    ({ relative_file_path := some "old.rs", language := some "rust" } :
      EditorInfo) ≠ ({} : EditorInfo) := by
  exact ⟨rfl, by decide⟩

/-- Claim C2, amended: when `params` is present, the stored context after
dispatch is `parseEditorInfo params` — a fresh context built from exactly
the fields present in `params`, nothing inherited (witnessed concretely by
the third conjunct: a params object holding only `relative_file_path`
yields a context with every other field unset) — and when `params` is
absent entirely the previously stored context is left unchanged; in both
cases the response is `{result: {status: "ok"}, id}` with the request's
id. -/
theorem C2_theorem (store : EditorInfo) (params : Value) (id : Option Value) :
    handle_jsonrpc_request store
      { method := "update_editor_state", params := some params, id := id } =
      (parseEditorInfo params, okResponse id) ∧
    handle_jsonrpc_request store
      { method := "update_editor_state", params := none, id := id } =
      (store, okResponse id) ∧
    parseEditorInfo (.obj [("relative_file_path", .str "a.rs")]) =
      { relative_file_path := some "a.rs", language := none, text := none,
        cursor_state := none, workspace_folders := none } := by
  refine ⟨rfl, rfl, rfl⟩

/-- Claim C3, counterexample: the `file_modification` payload built by
`send_clean_diff_to_vscode` (the legacy one-shot transport, the only
`file_modification` producer in the source) carries a `params` object with
exactly the keys `type`, `originalContent`, `modifiedContent` and
`filePath`: `fileName`, `fileExtension`, `title` and `isEntireFile` are
absent, so the claimed eight-field shape does not hold on this
transport. -/
theorem C3_counterexample :
    ((cleanDiffPayload "old" "new" "/tmp/a.rs").get "params").map Value.keys =
      some ["type", "originalContent", "modifiedContent", "filePath"] ∧
    (((cleanDiffPayload "old" "new" "/tmp/a.rs").get "params").bind
      (fun p => p.get "isEntireFile")) = none ∧
    (((cleanDiffPayload "old" "new" "/tmp/a.rs").get "params").bind
      (fun p => p.get "fileName")) = none := by
  exact ⟨rfl, rfl, rfl⟩

/-- Claim C3, amended: every outbound `file_modification` push on the
legacy one-shot transport carries a `params` object with exactly the
fields `type: "clean_diff_view"`, `originalContent`, `modifiedContent` and
`filePath`, the before/after text passed through verbatim; `fileName`,
`fileExtension`, `title` and `isEntireFile` are not part of the payload. -/
theorem C3_theorem (original modified path : String) :
    (cleanDiffPayload original modified path).get "method" =
      some (.str "file_modification") ∧
    ((cleanDiffPayload original modified path).get "params").map Value.keys =
      some ["type", "originalContent", "modifiedContent", "filePath"] ∧
    (cleanDiffPayload original modified path).get "params" =
      some (.obj [("type", .str "clean_diff_view"),
                  ("originalContent", .str original),
                  ("modifiedContent", .str modified),
                  ("filePath", .str path)]) := by
  refine ⟨rfl, rfl, rfl⟩

/-- Claim C4, counterexample: `send_to_ide` with no sink installed returns
`Ok(())` — the very same result a connected call returns — and delivers
nothing; it does not report "no active connection"/unavailable to the
caller, so the condition is indistinguishable from a successful hand-off. -/
theorem C4_counterexample :
    send_to_ide (K := Nat) none (.str "hello") = ([], .ok ()) ∧
    (send_to_ide (K := Nat) none (.str "hello")).2 =
      (send_to_ide (K := Nat) (some 0) (.str "hello")).2 := by
  exact ⟨rfl, rfl⟩

/-- Claim C4, amended: every publish or notify call made while no sink is
installed is a silent no-op — it delivers nothing and returns the plain
success value `Ok(())`, never raising, crashing or retrying — but the
"no active connection" condition is not reported to the caller. -/
theorem C4_theorem (K : Type) (method : String) (params message : Value) :
    send_to_ide (K := K) none message = ([], .ok ()) ∧
    notify_ide (K := K) none method params = ([], .ok ()) := by
  exact ⟨rfl, rfl⟩

/-- Claim C5: dispatching any request whose method is not
`update_editor_state` answers with the JSON-RPC error object carrying code
`-32601` ("Method not found") and the request's own id, and leaves the
stored editor context untouched. -/
theorem C5_theorem (store : EditorInfo) (req : JsonRpcRequest)
    (h : req.method ≠ "update_editor_state") :
    handle_jsonrpc_request store req = (store, methodNotFoundResponse req.id) := by
  unfold handle_jsonrpc_request
  simp [h]

/-- Witness for C5 at the spec's own example `{method: "frobnicate", id: 7}`. -/
theorem C5_witness :
    handle_jsonrpc_request {}
      { method := "frobnicate", params := none, id := some (.num 7) } =
      ({}, methodNotFoundResponse (some (.num 7))) :=
  C5_theorem {} { method := "frobnicate", params := none, id := some (.num 7) }
    (by decide)

/-- Claim C6: when the request's `cursor_state` sub-object is present but
fails to parse as a complete position or complete range, the stored
context has `cursor_state` unset while every other field is still the
parse of its own params entry, and the response is still the ok response
with the request's id. -/
theorem C6_theorem (store : EditorInfo) (params cs : Value) (id : Option Value)
    (hcs : params.get "cursor_state" = some cs)
    (hfail : parseCursorState cs = none) :
    handle_jsonrpc_request store
      { method := "update_editor_state", params := some params, id := id } =
      ({ relative_file_path := (params.get "relative_file_path").bind Value.as_str
         language := (params.get "language").bind Value.as_str
         text := (params.get "text").bind Value.as_str
         cursor_state := none
         workspace_folders :=
           ((params.get "workspace_folders").bind Value.as_arr).map fun folders =>
             folders.filterMap Value.as_str },
       okResponse id) := by
  simp [handle_jsonrpc_request, set_current_editor, parseEditorInfo, hcs, hfail]

/-- Witness for C6 at the spec's example: `cursor_state.position` missing
`character`, with a `language` field that still gets applied. -/
theorem C6_witness :
    handle_jsonrpc_request {}
      { method := "update_editor_state",
        params := some (.obj
          [("language", .str "rust"),
           ("cursor_state", .obj [("position", .obj [("line", .num 3)])])]),
        id := some (.num 2) } =
      ({ relative_file_path := none, language := some "rust", text := none,
         cursor_state := none, workspace_folders := none },
       okResponse (some (.num 2))) := by
  have h := C6_theorem {}
    (.obj [("language", .str "rust"),
           ("cursor_state", .obj [("position", .obj [("line", .num 3)])])])
    (.obj [("position", .obj [("line", .num 3)])])
    (some (.num 2)) rfl rfl
  exact h

/-- Claim C7, counterexample: with a stored context holding
`language = "rust"`, the snapshot returned by `get_current_editor_state`
carries `programming_language = None` (hardcoded at the construction
site), so the snapshot's language does not equal the stored context's
language field. -/
theorem C7_counterexample :
    get_current_editor_state
      { relative_file_path := some "a.rs", language := some "rust" } =
      some { document := some { relative_file_path := "a.rs",
                                programming_language := none,
                                text := none, document_symbols := none }
             cursor_state := none, relevant_documents := none
             use_relevant_documents := some false, workspace_folders := none } ∧
    (some "rust" : Option String) ≠ none := by
  exact ⟨rfl, by decide⟩

/-- Claim C7, amended: `get_current_editor_state` returns nothing exactly
when no file path has been reported, and otherwise a snapshot whose file
path, text, cursor state and workspace folders equal the stored context's
fields — but whose `programming_language` is always unset, the stored
`language` is not propagated.  Snapshot immutability holds by
construction: the returned value is built by cloning and shares no state
with the store. -/
theorem C7_theorem (e : EditorInfo) :
    (e.relative_file_path = none → get_current_editor_state e = none) ∧
    (∀ p, e.relative_file_path = some p →
      get_current_editor_state e =
        some { document := some { relative_file_path := p
                                  programming_language := none
                                  text := e.text
                                  document_symbols := none }
               cursor_state := e.cursor_state
               relevant_documents := none
               use_relevant_documents := some false
               workspace_folders := e.workspace_folders }) := by
  constructor
  · intro h
    simp [get_current_editor_state, h]
  · intro p h
    simp [get_current_editor_state, h]

/-- Witness for C7 at a concrete stored context with a path and text. -/
theorem C7_witness :
    get_current_editor_state
      { relative_file_path := some "a.rs", text := some "fn main() \x7b\x7d" } =
      some { document := some { relative_file_path := "a.rs"
                                programming_language := none
                                text := some "fn main() \x7b\x7d"
                                document_symbols := none }
             cursor_state := none, relevant_documents := none
             use_relevant_documents := some false, workspace_folders := none } :=
  (C7_theorem
    { relative_file_path := some "a.rs", text := some "fn main() \x7b\x7d" }).2
    "a.rs" rfl

/-- Claim C8: whenever the liveness round trip times out or fails with any
I/O error, `is_vscode_integration_available` returns `false`; nothing is
propagated to the caller — the function's result type is a plain boolean,
and the advisory environment variables never change the outcome. -/
theorem C8_theorem (term_program vscode_extensions : Option String)
    (outcome : ProbeOutcome) (h : ∀ b, outcome ≠ ProbeOutcome.response b) :
    is_vscode_integration_available term_program vscode_extensions outcome =
      false := by
  cases outcome with
  | timeout => rfl
  | ioError m => rfl
  | response b => exact absurd rfl (h b)

/-- Witness for C8: a timed-out probe reports unavailable. -/
theorem C8_witness :
    is_vscode_integration_available none none ProbeOutcome.timeout = false :=
  C8_theorem none none ProbeOutcome.timeout (by intro b; cases b <;> simp)

/-- Claim C9: when a `cursor_state` object offers both a `position` key and
a `range` key, the parse is exactly the position branch's result — the
range is never examined — and the result is never a `Range`; consequently,
inside a full `update_editor_state` dispatch the stored cursor state is
the position branch's result. -/
theorem C9_theorem (cursor_state position range : Value)
    (hpos : cursor_state.get "position" = some position)
    (_hrange : cursor_state.get "range" = some range) :
    parseCursorState cursor_state = parsePositionVariant position ∧
    (∀ r : Range, parseCursorState cursor_state ≠ some (.Range r)) ∧
    (∀ (store : EditorInfo) (params : Value) (id : Option Value),
      params.get "cursor_state" = some cursor_state →
      (handle_jsonrpc_request store
        { method := "update_editor_state", params := some params,
          id := id }).1.cursor_state = parsePositionVariant position) := by
  have hmain : parseCursorState cursor_state = parsePositionVariant position := by
    unfold parseCursorState
    rw [hpos]
  refine ⟨hmain, ?_, ?_⟩
  · intro r
    rw [hmain]
    unfold parsePositionVariant
    cases h1 : (position.get "line").bind Value.as_i64 with
    | none => simp
    | some l =>
      cases h2 : (position.get "character").bind Value.as_i64 with
      | none => simp
      | some c => simp
  · intro store params id hparams
    simp [handle_jsonrpc_request, set_current_editor, parseEditorInfo,
      hparams, hmain]

/-- Witness for C9: a cursor object carrying both a complete position and a
complete range stores the position, not the range. -/
theorem C9_witness :
    parseCursorState
      (.obj [("position", .obj [("line", .num 1), ("character", .num 2)]),
             ("range", .obj
               [("start", .obj [("line", .num 0), ("character", .num 0)]),
                ("end", .obj [("line", .num 9), ("character", .num 9)])])]) =
      parsePositionVariant (.obj [("line", .num 1), ("character", .num 2)]) ∧
    (∀ r : Range, parseCursorState
      (.obj [("position", .obj [("line", .num 1), ("character", .num 2)]),
             ("range", .obj
               [("start", .obj [("line", .num 0), ("character", .num 0)]),
                ("end", .obj [("line", .num 9), ("character", .num 9)])])]) ≠
      some (.Range r)) := by
  have h := C9_theorem
    (.obj [("position", .obj [("line", .num 1), ("character", .num 2)]),
           ("range", .obj
             [("start", .obj [("line", .num 0), ("character", .num 0)]),
              ("end", .obj [("line", .num 9), ("character", .num 9)])])])
    (.obj [("line", .num 1), ("character", .num 2)])
    (.obj [("start", .obj [("line", .num 0), ("character", .num 0)]),
           ("end", .obj [("line", .num 9), ("character", .num 9)])])
    rfl rfl
  exact ⟨h.1, h.2.1⟩

/-- Claim C10: for a `Range` cursor the selection description reports
exactly `max(end.line - start.line + 1, 1)` lines in wrapping 32-bit
arithmetic — at least 1 even for empty or inverted ranges — and no
selection description is produced for a `Position` or absent cursor. -/
theorem C10_theorem (range : Range) (p : Position) :
    selectionLines range =
      max (wrap32 (range.«end».line - range.start.line + 1)) 1 ∧
    1 ≤ selectionLines range ∧
    selection_info (some (.Range range)) =
      " (" ++ toString (selectionLines range) ++ " lines selected)" ∧
    selection_info (some (.Position p)) = "" ∧
    selection_info none = "" := by
  have hims : wrap32 (wrap32 (range.«end».line - range.start.line) + 1) =
      wrap32 (range.«end».line - range.start.line + 1) := by
    unfold wrap32
    omega
  refine ⟨?_, ?_, rfl, rfl, rfl⟩
  · rw [selectionLines, hims]
  · exact le_max_right _ 1

end QBridge
